import Mathlib

/-!
Shallow embedding of the facility-location model layer of the `spopt.locate`
package (`coverage.py`, `p_dispersion.py`): the coverage-matrix preprocessor,
the constraint families, the model assemblers (`LSCP`, `LSCPB`, `MCLP`,
`PDispersion`, and the k-nearest p-median variant), the `solve` control flow
and the result extraction.  Distances, coordinates and solved variable values
are modelled as rationals; the external MILP solver is an opaque function
from a problem to a status together with variable values, exactly the
"solve(model) -> status, variable values" boundary of the specification.
The classes `LocateSolver`, `FacilityModelBuilder`, the output mixins of
`spopt/locate/base.py` and the `KNearestPMedian` class of
`spopt/locate/p_median.py` are not part of the sources; wherever one of
their members decides a property, the corresponding definition below is
marked `Modelled from the spec:` and follows the specification text.
-/

/-- A cost matrix: rows are demand points (clients), columns are candidate
facility sites; `entry i j` is the distance or travel time from client `i`
to facility `j` (`cost_matrix[i][j]` in the sources). -/
structure CostMatrix where
  nCli : Nat
  nFac : Nat
  entry : Nat → Nat → ℚ

/-- The coverage-matrix preprocessor of `LSCP.from_cost_matrix`
(coverage.py lines 190-191; the same two lines recur in
`LSCPB.from_cost_matrix`, lines 592-593, and `MCLP.from_cost_matrix`,
lines 997-998): start from zeros and set `aij[i][j] = 1` wherever
`cost_matrix[i][j] <= service_radius`. -/
def coverage (c : CostMatrix) (r : ℚ) : Nat → Nat → ℚ :=
  fun i j => if c.entry i j ≤ r then 1 else 0

/-- A valuation of the decision variables of one model instance: facility
variables `fac j`, client variables `cli i`, assignment variables
`asg i j` (median-style models) and the scalar dispersion variable. -/
structure Assignment where
  fac : Nat → ℚ
  cli : Nat → ℚ
  asg : Nat → Nat → ℚ
  disperse : ℚ

/-- Dot product of an explicit coefficient row with the facility variables,
`sum_j row[j] * y_j` over the positions of the row. -/
def rowDot (row : List ℚ) (y : Nat → ℚ) : ℚ :=
  ∑ j ∈ Finset.range row.length, row.getD j 0 * y j

/-- The linear-constraint families appended by `FacilityModelBuilder`.
Modelled from the spec: `spopt/locate/base.py` is absent from the sources,
so the families and their coefficients follow section 4.3 of the
specification (set-covering, backup-covering, maximal-coverage,
facility-count as exact cardinality or as an upper bound,
predefined-facility, interfacility dispersion with the big-M constant). -/
inductive Constr where
  | setCover (row : List ℚ)
  | backupCover (i : Nat) (row : List ℚ)
  | maxCover (i : Nat) (row : List ℚ)
  | facCountEq (n : Nat) (p : ℚ)
  | facCountLE (n : Nat) (bound : ℚ)
  | predef (j : Nat)
  | interfacility (j k : Nat) (d bigM : ℚ)
deriving DecidableEq

/-- Semantics of one constraint at a valuation of the decision variables.
Modelled from the spec, section 4.3: set-covering demands
`sum_{j in N_i} y_j >= 1`, backup covering
`sum_j aij[i][j] * y_j >= 1 + x_i`, maximal coverage
`x_i <= sum_j aij[i][j] * y_j`, facility count an equality or an upper
bound on `sum_j y_j`, predefined facilities fix `y_j = 1`, and the
dispersion constraint reads `D <= d_jk + M * (2 - y_j - y_k)`. -/
def constrHolds (c : Constr) (a : Assignment) : Bool :=
  match c with
  | .setCover row => decide (1 ≤ rowDot row a.fac)
  | .backupCover i row => decide (1 + a.cli i ≤ rowDot row a.fac)
  | .maxCover i row => decide (a.cli i ≤ rowDot row a.fac)
  | .facCountEq n p => decide ((∑ j ∈ Finset.range n, a.fac j) = p)
  | .facCountLE n bound => decide ((∑ j ∈ Finset.range n, a.fac j) ≤ bound)
  | .predef j => decide (a.fac j = 1)
  | .interfacility j k d bigM =>
      decide (a.disperse ≤ d + bigM * (2 - a.fac j - a.fac k))

/-- Objective functions of the five model assemblers: minimise the open
facilities (LSCP), maximise the backup-covered clients (LSCPB), maximise
the weighted covered clients (MCLP), minimise the total assignment distance
(median variants) or maximise the dispersion variable. -/
inductive Objective where
  | sumFac (n : Nat)
  | sumCli (n : Nat)
  | weightedCli (w : List ℚ)
  | assignCost (costs : List (List ℚ))
  | disperseObj
deriving DecidableEq

/-- Value of an objective at a valuation, `problem.objective.value()`. -/
def objValue : Objective → Assignment → ℚ
  | .sumFac n, a => ∑ j ∈ Finset.range n, a.fac j
  | .sumCli n, a => ∑ i ∈ Finset.range n, a.cli i
  | .weightedCli w, a => ∑ i ∈ Finset.range w.length, w.getD i 0 * a.cli i
  | .assignCost costs, a =>
      ∑ i ∈ Finset.range costs.length,
        ∑ j ∈ Finset.range (costs.getD i []).length,
          (costs.getD i []).getD j 0 * a.asg i j
  | .disperseObj, a => a.disperse

/-- A `pulp.LpProblem`: a sense, an objective and the list of constraints
in the order the assembler appended them. -/
structure LpProblem where
  maximize : Bool
  objective : Objective
  constrs : List Constr

/-- Solver statuses of the solver boundary: only `optimal` permits result
extraction to proceed. -/
inductive LpStatusT where
  | optimal
  | infeasible
  | unbounded
  | notSolved
  | undefined
deriving DecidableEq

/-- Printable name of a status, as `pulp.LpStatus` renders it. -/
def statusName : LpStatusT → String
  | .optimal => "Optimal"
  | .infeasible => "Infeasible"
  | .unbounded => "Unbounded"
  | .notSolved => "Not Solved"
  | .undefined => "Undefined"

/-- What the opaque external solver hands back: a status and a settled
numeric value for every decision variable. -/
structure SolveResult where
  status : LpStatusT
  assign : Assignment

/-- The opaque external solver boundary, `solve(problem) -> status` plus
per-variable values. -/
abbrev Solver := LpProblem → SolveResult

/-- Modelled from the spec: `check_status` lives in `spopt/locate/base.py`,
absent from the sources; section 7 demands that a non-optimal status be
raised as a runtime failure that names the status.  This is the message of
that failure. -/
def check_status_msg (st : LpStatusT) : String :=
  "Model is not solved: " ++ statusName st

/-- Modelled from the spec: `add_predefined_facility_constraint` of
`spopt/locate/base.py` is absent from the sources; per sections 3 and 4.2,
every facility marked in the optional boolean array gets the equality
constraint `FacilityVar[j] = 1`. -/
def predefConstrs (predef : Option (List Bool)) : List Constr :=
  match predef with
  | none => []
  | some arr =>
      ((List.range arr.length).filter (fun j => arr.getD j false)).map Constr.predef

/-- Row of coverage coefficients of client `i` against all facilities,
`[aij i 0, ..., aij i (nFac - 1)]`. -/
def coverRow (aij : Nat → Nat → ℚ) (nFac i : Nat) : List ℚ :=
  (List.range nFac).map (fun j => aij i j)

/-- The `LSCP` model instance: name, assembled problem, problem sizes and
the coverage matrix `aij` stored on the instance. -/
structure LSCP where
  name : String
  problem : LpProblem
  nCli : Nat
  nFac : Nat
  aij : Nat → Nat → ℚ

/-- `LSCP.from_cost_matrix` (coverage.py lines 90-203): build the coverage
matrix, add the predefined-facility constraints when the array is given,
the minimising objective over the facility variables and one set-covering
constraint per client. -/
def LSCP.from_cost_matrix (c : CostMatrix) (service_radius : ℚ)
    (predefined_facilities_arr : Option (List Bool)) (name : String) : LSCP :=
  let aij := coverage c service_radius
  { name := name
    problem :=
      { maximize := false
        objective := .sumFac c.nFac
        constrs :=
          predefConstrs predefined_facilities_arr ++
            (List.range c.nCli).map (fun i => Constr.setCover (coverRow aij c.nFac i)) }
    nCli := c.nCli
    nFac := c.nFac
    aij := aij }

theorem coverage_one_iff (c : CostMatrix) (r : ℚ) (i j : Nat) :
    (coverage c r i j = 1 ↔ c.entry i j ≤ r) ∧
      (coverage c r i j = 0 ↔ ¬ c.entry i j ≤ r) := by
  unfold coverage
  split_ifs with h
  · simp [h]
  · norm_num [h]

/-- Facility-to-client result extraction of `LSCP.facility_client_array`
(coverage.py lines 349-375; `LSCPB.facility_client_array`, lines 764-790,
is textually identical): a facility whose solved value is positive collects
every client index with a positive coverage entry, any other facility keeps
an empty client list. -/
def facility_client_array (nFac nCli : Nat) (aij : Nat → Nat → ℚ)
    (facVal : Nat → ℚ) : List (List Nat) :=
  (List.range nFac).map (fun j =>
    if 0 < facVal j then (List.range nCli).filter (fun i => decide (0 < aij i j))
    else [])

/-- `MCLP.facility_client_array` (coverage.py lines 1187-1215): as for the
LSCP but a client is collected only when its own client variable is also
solved positive. -/
def mclp_facility_client_array (nFac nCli : Nat) (aij : Nat → Nat → ℚ)
    (facVal cliVal : Nat → ℚ) : List (List Nat) :=
  (List.range nFac).map (fun j =>
    if 0 < facVal j then
      (List.range nCli).filter (fun i => decide (0 < cliVal i) && decide (0 < aij i j))
    else [])

/-- Modelled from the spec: `client_facility_array` of the output mixin in
`spopt/locate/base.py` is absent from the sources; per sections 3 and 4.5,
`cli2fac` is the index-inverse of `fac2cli`, one entry per client listing
the facilities whose entry contains that client. -/
def client_facility_array (fac2cli : List (List Nat)) (nCli : Nat) :
    List (List Nat) :=
  (List.range nCli).map (fun i =>
    (List.range fac2cli.length).filter (fun j => decide (i ∈ fac2cli.getD j [])))

/-- Post-solve `LSCP` instance: the solved variable values together with
the result attributes, which stay `none` (so that reading them is an
attribute error) unless `solve` populated them. -/
structure LSCPSolved where
  model : LSCP
  assign : Assignment
  fac2cli : Option (List (List Nat))
  cli2fac : Option (List (List Nat))

/-- `LSCP.solve` (coverage.py lines 377-403): run the solver, check the
status (`check_status`, modelled from the spec as a runtime failure naming
a non-optimal status), and only then, when `results` is set, populate
`fac2cli` and `cli2fac`. -/
def LSCP.solve (m : LSCP) (solver : Solver) (results : Bool) :
    Except String LSCPSolved :=
  let res := solver m.problem
  if res.status = LpStatusT.optimal then
    if results then
      let f2c := facility_client_array m.nFac m.nCli m.aij res.assign.fac
      Except.ok
        { model := m, assign := res.assign, fac2cli := some f2c
          cli2fac := some (client_facility_array f2c m.nCli) }
    else
      Except.ok { model := m, assign := res.assign, fac2cli := none, cli2fac := none }
  else
    Except.error (check_status_msg res.status)

/-- The `LSCPB` model instance; it stores the solver handed to the factory
and the optimal objective value of the prior LSCP solve. -/
structure LSCPB where
  name : String
  problem : LpProblem
  nCli : Nat
  nFac : Nat
  aij : Nat → Nat → ℚ
  lscp_obj_value : ℚ
  solver : Solver

/-- `LSCPB.from_cost_matrix` (coverage.py lines 472-608): build and solve an
`LSCP` on the same cost matrix and service radius (propagating its failure
when the solve is not optimal), record its objective value as
`lscp_obj_value`, rebuild the coverage matrix, and assemble the backup
model: predefined facilities, the maximising objective over the client
variables, the facility-count budget at `lscp_obj_value` and one
backup-covering constraint per client. -/
def LSCPB.from_cost_matrix (c : CostMatrix) (service_radius : ℚ)
    (solver : Solver) (predefined_facilities_arr : Option (List Bool))
    (name : String) : Except String LSCPB :=
  let lscp := LSCP.from_cost_matrix c service_radius predefined_facilities_arr "LSCP"
  match lscp.solve solver true with
  | Except.error e => Except.error e
  | Except.ok solved =>
      let objv := objValue lscp.problem.objective solved.assign
      let aij := coverage c service_radius
      Except.ok
        { name := name
          problem :=
            { maximize := true
              objective := .sumCli c.nCli
              constrs :=
                predefConstrs predefined_facilities_arr ++
                  [Constr.facCountLE c.nFac objv] ++
                  (List.range c.nCli).map
                    (fun i => Constr.backupCover i (coverRow aij c.nFac i)) }
          nCli := c.nCli
          nFac := c.nFac
          aij := aij
          lscp_obj_value := objv
          solver := solver }

/-- Post-solve `LSCPB` instance (the backup-percentage metric of
`get_percentage` is a derived scalar not modelled here). -/
structure LSCPBSolved where
  model : LSCPB
  assign : Assignment
  fac2cli : Option (List (List Nat))
  cli2fac : Option (List (List Nat))

/-- `LSCPB.solve` (coverage.py lines 792-817): run the stored solver, check
the status, and only when `results` is set populate `fac2cli`/`cli2fac`. -/
def LSCPB.solve (m : LSCPB) (results : Bool) : Except String LSCPBSolved :=
  let res := m.solver m.problem
  if res.status = LpStatusT.optimal then
    if results then
      let f2c := facility_client_array m.nFac m.nCli m.aij res.assign.fac
      Except.ok
        { model := m, assign := res.assign, fac2cli := some f2c
          cli2fac := some (client_facility_array f2c m.nCli) }
    else
      Except.ok { model := m, assign := res.assign, fac2cli := none, cli2fac := none }
  else
    Except.error (check_status_msg res.status)

/-- The `MCLP` model instance. -/
structure MCLP where
  name : String
  problem : LpProblem
  nCli : Nat
  nFac : Nat
  aij : Nat → Nat → ℚ

/-- `MCLP.from_cost_matrix` (coverage.py lines 878-1014): coverage matrix,
weighted maximising objective over the client variables, predefined
facilities when given, one maximal-coverage constraint per client and the
exact facility-count constraint at `p_facilities`. -/
def MCLP.from_cost_matrix (c : CostMatrix) (weights : List ℚ)
    (service_radius : ℚ) (p_facilities : Nat)
    (predefined_facilities_arr : Option (List Bool)) (name : String) : MCLP :=
  let aij := coverage c service_radius
  { name := name
    problem :=
      { maximize := true
        objective := .weightedCli weights
        constrs :=
          predefConstrs predefined_facilities_arr ++
            (List.range c.nCli).map
              (fun i => Constr.maxCover i (coverRow aij c.nFac i)) ++
            [Constr.facCountEq c.nFac (p_facilities : ℚ)] }
    nCli := c.nCli
    nFac := c.nFac
    aij := aij }

/-- Post-solve `MCLP` instance (`n_cli_uncov` and `perc_cov` are derived
scalars not modelled here). -/
structure MCLPSolved where
  model : MCLP
  assign : Assignment
  fac2cli : Option (List (List Nat))
  cli2fac : Option (List (List Nat))

/-- `MCLP.solve` (coverage.py lines 1217-1244): run the solver, check the
status, and only when `results` is set populate the result arrays. -/
def MCLP.solve (m : MCLP) (solver : Solver) (results : Bool) :
    Except String MCLPSolved :=
  let res := solver m.problem
  if res.status = LpStatusT.optimal then
    if results then
      let f2c := mclp_facility_client_array m.nFac m.nCli m.aij res.assign.fac res.assign.cli
      Except.ok
        { model := m, assign := res.assign, fac2cli := some f2c
          cli2fac := some (client_facility_array f2c m.nCli) }
    else
      Except.ok { model := m, assign := res.assign, fac2cli := none, cli2fac := none }
  else
    Except.error (check_status_msg res.status)

/-- The `PDispersion` model instance (p_dispersion.py lines 12-38): it keeps
the requested facility count and has no client side at all. -/
structure PDispersion where
  name : String
  problem : LpProblem
  nFac : Nat
  p_facilities : Nat

/-- Modelled from the spec: the big-M constant of the dispersion constraint
must exceed every pairwise cost and, per the design notes, is chosen as the
true matrix maximum (`cost_matrix.max()`); distances are non-negative, so
folding `max` from zero returns that maximum. -/
def maxEntry (c : CostMatrix) : ℚ :=
  ((List.range c.nCli).map
    (fun i => ((List.range c.nFac).map (fun j => c.entry i j)).foldr max 0)).foldr max 0

/-- Ordered pairs `(j, k)` with `j < k < n`: the unordered candidate
facility pairs of the dispersion constraint. -/
def pairList (n : Nat) : List (Nat × Nat) :=
  (List.range n).flatMap
    (fun j => ((List.range n).filter (fun k => decide (j < k))).map (fun k => (j, k)))

/-- `PDispersion.from_cost_matrix` (p_dispersion.py lines 56-168): the
dispersion variable and maximising objective, the facility variables, the
facility-count constraint at `p_fac`, the predefined-facility constraints
when given, and one interfacility big-M constraint per unordered pair of
candidate facilities. -/
def PDispersion.from_cost_matrix (c : CostMatrix) (p_fac : Nat)
    (predefined_facilities_arr : Option (List Bool)) (name : String) : PDispersion :=
  let bigM := maxEntry c
  { name := name
    p_facilities := p_fac
    nFac := c.nFac
    problem :=
      { maximize := true
        objective := .disperseObj
        constrs :=
          [Constr.facCountLE c.nFac (p_fac : ℚ)] ++
            predefConstrs predefined_facilities_arr ++
            (pairList c.nFac).map
              (fun jk => Constr.interfacility jk.1 jk.2 (c.entry jk.1 jk.2) bigM) } }

/-- Post-solve `PDispersion` instance.  The class never defines result
arrays; the optional fields model the attributes that would have to exist
for `fac2cli`/`cli2fac` access to succeed, and `solve` never sets them. -/
structure PDispersionSolved where
  model : PDispersion
  assign : Assignment
  fac2cli : Option (List (List Nat))
  cli2fac : Option (List (List Nat))

/-- `PDispersion.solve` (p_dispersion.py lines 286-308): run the solver and
check the status; the `results` flag is accepted but ignored, and no result
extraction of any kind is performed. -/
def PDispersion.solve (m : PDispersion) (solver : Solver) (results : Bool) :
    Except String PDispersionSolved :=
  let res := solver m.problem
  if res.status = LpStatusT.optimal then
    Except.ok { model := m, assign := res.assign, fac2cli := none, cli2fac := none }
  else
    Except.error (check_status_msg res.status)

/-- Modelled from the spec: the `KNearestPMedian` class of
`spopt/locate/p_median.py` is absent from the sources (only its tests are
present); this is the model instance of the k-nearest p-median variant. -/
structure KNearestPMedian where
  name : String
  problem : LpProblem
  nCli : Nat
  nFac : Nat
  cost : Nat → Nat → ℚ

/-- Modelled from the spec, section 4.5: result extraction of the median
variant collects, for each facility solved open, the clients whose
assignment variable to it is solved positive. -/
def knpm_facility_client_array (nFac nCli : Nat) (asg : Nat → Nat → ℚ)
    (facVal : Nat → ℚ) : List (List Nat) :=
  (List.range nFac).map (fun j =>
    if 0 < facVal j then (List.range nCli).filter (fun i => decide (0 < asg i j))
    else [])

/-- Post-solve `KNearestPMedian` instance (its `mean_dist` metric is a
derived scalar not modelled here). -/
structure KNearestPMedianSolved where
  model : KNearestPMedian
  assign : Assignment
  fac2cli : Option (List (List Nat))
  cli2fac : Option (List (List Nat))

/-- Modelled from the spec, section 4.4, and the behaviour pinned by
`test_knearest_p_median_from_geodataframe_no_results`: run the solver,
check the status, and populate `fac2cli`/`cli2fac` exactly when `results`
is set, leaving them unset otherwise. -/
def KNearestPMedian.solve (m : KNearestPMedian) (solver : Solver)
    (results : Bool) : Except String KNearestPMedianSolved :=
  let res := solver m.problem
  if res.status = LpStatusT.optimal then
    if results then
      let f2c := knpm_facility_client_array m.nFac m.nCli res.assign.asg res.assign.fac
      Except.ok
        { model := m, assign := res.assign, fac2cli := some f2c
          cli2fac := some (client_facility_array f2c m.nCli) }
    else
      Except.ok { model := m, assign := res.assign, fac2cli := none, cli2fac := none }
  else
    Except.error (check_status_msg res.status)

/-- A geometry of a geodataframe column: its `geom_type` string, its `x`/`y`
coordinate accessors (meaningful for points) and its centroid. -/
structure Geom where
  gtype : String
  x : ℚ
  y : ℚ
  cx : ℚ
  cy : ℚ
deriving DecidableEq

/-- Centroid substitution: the point geometry standing at a geometry's
centroid, what `series.centroid` yields for one row. -/
def Geom.centroidPoint (g : Geom) : Geom :=
  { gtype := "Point", x := g.cx, y := g.cy, cx := g.cx, cy := g.cy }

/-- A `geopandas.GeoDataFrame` as the model layer reads it: the selected
geometry column, the coordinate reference system, the optional
predefined-facility column and the optional weight column. -/
structure GeoDataFrame where
  geoms : List Geom
  crs : String
  predefData : List Bool
  weightData : List ℚ

/-- The predefined-facility array handed to `from_cost_matrix`: the
facility frame's column when a column name was supplied, `none` otherwise
(coverage.py lines 312-314 and analogues). -/
def chosenPredef (gdf : GeoDataFrame) (useCol : Bool) : Option (List Bool) :=
  if useCol then some gdf.predefData else none

/-- The distinct geometry types of a column, `series.geom_type.unique()`. -/
def geomTypes (gs : List Geom) : List String :=
  (gs.map Geom.gtype).dedup

/-- The mixed-or-non-point test of `from_geodataframe`
(coverage.py line 326): `len(types) > 1 or "Point" not in types`. -/
def needsCentroid (gs : List Geom) : Bool :=
  decide (1 < (geomTypes gs).length) || !(decide ("Point" ∈ geomTypes gs))

/-- The centroid-substitution warning text (coverage.py lines 322-325,
trailing sentence abridged). -/
def centroidWarnMsg (label : String) : String :=
  label ++ " geodataframe contains mixed type geometries or is not a point."

/-- Geometry-column preprocessing of `from_geodataframe` (coverage.py lines
319-332): when the column is mixed-typed or not point-typed, emit the
user-visible warning and substitute every geometry by its centroid;
otherwise pass the column through silently. -/
def processSeries (label : String) (gs : List Geom) : List String × List Geom :=
  if needsCentroid gs then ([centroidWarnMsg label], gs.map Geom.centroidPoint)
  else ([], gs)

/-- Coordinate extraction `numpy.array([series.x, series.y]).T`. -/
def seriesCoords (gs : List Geom) : List (ℚ × ℚ) :=
  gs.map (fun g => (g.x, g.y))

/-- A pairwise distance metric, the external
`scipy.spatial.distance.cdist` boundary (euclidean by default). -/
abbrev Metric := (ℚ × ℚ) → (ℚ × ℚ) → ℚ

/-- Modelled from the spec: `cdist(dem_data, fac_data, distance_metric)` is
an external routine returning the matrix of pairwise distances between the
two coordinate arrays under the chosen metric. -/
def cdistMatrix (dem fac : List (ℚ × ℚ)) (metric : Metric) : CostMatrix :=
  { nCli := dem.length
    nFac := fac.length
    entry := fun i j => metric (dem.getD i (0, 0)) (fac.getD j (0, 0)) }

/-- The CRS-mismatch failure message of `from_geodataframe`
(coverage.py lines 337-341). -/
def crsMsg (gdfDemand gdfFac : GeoDataFrame) : String :=
  "Geodataframes crs are different: gdf_demand-" ++ gdfDemand.crs ++
    ", gdf_fac-" ++ gdfFac.crs

/-- `LSCP.from_geodataframe` (coverage.py lines 205-347): read the optional
predefined column, preprocess both geometry columns (possibly warning and
substituting centroids), extract the coordinates, fail when the two frames
disagree on the CRS, otherwise compute the pairwise cost matrix and
delegate to `from_cost_matrix`.  The first component collects the warnings
emitted along the way. -/
def LSCP.from_geodataframe (gdfDemand gdfFac : GeoDataFrame)
    (service_radius : ℚ) (usePredefCol : Bool) (metric : Metric)
    (name : String) : List String × Except String LSCP :=
  let predef := chosenPredef gdfFac usePredefCol
  let pd := processSeries "Demand" gdfDemand.geoms
  let pf := processSeries "Facility" gdfFac.geoms
  let demData := seriesCoords pd.2
  let facData := seriesCoords pf.2
  if gdfDemand.crs = gdfFac.crs then
    (pd.1 ++ pf.1,
      Except.ok (LSCP.from_cost_matrix (cdistMatrix demData facData metric)
        service_radius predef name))
  else
    (pd.1 ++ pf.1, Except.error (crsMsg gdfDemand gdfFac))

/-- `LSCPB.from_geodataframe` (coverage.py lines 610-762): same pipeline as
for the LSCP, delegating to `LSCPB.from_cost_matrix` with the solver. -/
def LSCPB.from_geodataframe (gdfDemand gdfFac : GeoDataFrame)
    (service_radius : ℚ) (solver : Solver) (usePredefCol : Bool)
    (metric : Metric) (name : String) : List String × Except String LSCPB :=
  let predef := chosenPredef gdfFac usePredefCol
  let pd := processSeries "Demand" gdfDemand.geoms
  let pf := processSeries "Facility" gdfFac.geoms
  let demData := seriesCoords pd.2
  let facData := seriesCoords pf.2
  if gdfDemand.crs = gdfFac.crs then
    (pd.1 ++ pf.1,
      LSCPB.from_cost_matrix (cdistMatrix demData facData metric)
        service_radius solver predef name)
  else
    (pd.1 ++ pf.1, Except.error (crsMsg gdfDemand gdfFac))

/-- `MCLP.from_geodataframe` (coverage.py lines 1016-1185): same pipeline,
additionally reading the weight column of the demand frame, delegating to
`MCLP.from_cost_matrix`. -/
def MCLP.from_geodataframe (gdfDemand gdfFac : GeoDataFrame)
    (service_radius : ℚ) (p_facilities : Nat) (usePredefCol : Bool)
    (metric : Metric) (name : String) : List String × Except String MCLP :=
  let predef := chosenPredef gdfFac usePredefCol
  let serviceLoad := gdfDemand.weightData
  let pd := processSeries "Demand" gdfDemand.geoms
  let pf := processSeries "Facility" gdfFac.geoms
  let demData := seriesCoords pd.2
  let facData := seriesCoords pf.2
  if gdfDemand.crs = gdfFac.crs then
    (pd.1 ++ pf.1,
      Except.ok (MCLP.from_cost_matrix (cdistMatrix demData facData metric)
        serviceLoad service_radius p_facilities predef name))
  else
    (pd.1 ++ pf.1, Except.error (crsMsg gdfDemand gdfFac))

/-- `PDispersion.from_geodataframe` (p_dispersion.py lines 170-284): the
dispersion variant reads a single facility frame — there is no second
layer and no CRS comparison — preprocesses its geometry column, and
delegates to `from_cost_matrix` on the facility-to-facility distances. -/
def PDispersion.from_geodataframe (gdfFac : GeoDataFrame) (p_fac : Nat)
    (usePredefCol : Bool) (metric : Metric) (name : String) :
    List String × PDispersion :=
  let predef := chosenPredef gdfFac usePredefCol
  let pf := processSeries "Facility" gdfFac.geoms
  let facData := seriesCoords pf.2
  (pf.1, PDispersion.from_cost_matrix (cdistMatrix facData facData metric)
    p_fac predef name)

/-- Definition following the specification's words, for the refinement
claim: the cost matrix `from_geodataframe` is specified to hand over is
the pairwise distance matrix computed from the two layers' point
coordinates under the chosen metric. -/
def specLayerCostMatrix (gdfDemand gdfFac : GeoDataFrame) (metric : Metric) :
    CostMatrix :=
  cdistMatrix (seriesCoords gdfDemand.geoms) (seriesCoords gdfFac.geoms) metric

/-- Modelled from the spec: `KNearestPMedian.from_cost_matrix` of
`spopt/locate/p_median.py` is absent from the sources; per sections 4.3 and
8, the median model minimises the total assignment distance subject to the
exact facility-count constraint.  The assignment, capacity and k-nearest
candidate-set constraint rows of the absent source, and its `k_array`
validation, are not modelled — no claim below depends on them. -/
def KNearestPMedian.from_cost_matrix (c : CostMatrix) (p_facilities : Nat)
    (name : String) : KNearestPMedian :=
  { name := name
    problem :=
      { maximize := false
        objective := .assignCost ((List.range c.nCli).map
          (fun i => (List.range c.nFac).map (fun j => c.entry i j)))
        constrs := [Constr.facCountEq c.nFac (p_facilities : ℚ)] }
    nCli := c.nCli
    nFac := c.nFac
    cost := c.entry }

/-- Modelled from the spec: `KNearestPMedian.from_geodataframe` of
`spopt/locate/p_median.py` is absent from the sources; per section 4.1 it
validates that the two supplied layers share one spatial reference system,
failing with the CRS-mismatch error pinned by
`test_error_geodataframe_crs_mismatch` (test_knearest_p_median.py lines
142-155), preprocesses the geometry columns with the centroid warning,
computes the pairwise cost matrix under the chosen metric and delegates to
`from_cost_matrix`.  No solver is involved anywhere in construction. -/
def KNearestPMedian.from_geodataframe (gdfDemand gdfFac : GeoDataFrame)
    (p_facilities : Nat) (metric : Metric) (name : String) :
    List String × Except String KNearestPMedian :=
  let pd := processSeries "Demand" gdfDemand.geoms
  let pf := processSeries "Facility" gdfFac.geoms
  let demData := seriesCoords pd.2
  let facData := seriesCoords pf.2
  if gdfDemand.crs = gdfFac.crs then
    (pd.1 ++ pf.1,
      Except.ok (KNearestPMedian.from_cost_matrix
        (cdistMatrix demData facData metric) p_facilities name))
  else
    (pd.1 ++ pf.1, Except.error (crsMsg gdfDemand gdfFac))

/-- A one-client, one-facility cost matrix at distance zero, used to
instantiate the theorems below on concrete data. -/
def exCost : CostMatrix := ⟨1, 1, fun _ _ => 0⟩

/-- The all-ones valuation of the decision variables. -/
def onesAssign : Assignment := ⟨fun _ => 1, fun _ => 1, fun _ _ => 1, 1⟩

/-- A solver stub that always reports an optimal solve with all variables
set to one. -/
def constOptSolver : Solver := fun _ => ⟨LpStatusT.optimal, onesAssign⟩

/-- A solver stub that always reports infeasibility. -/
def constInfSolver : Solver := fun _ => ⟨LpStatusT.infeasible, onesAssign⟩

/-- Concrete `LSCP` instance on `exCost`. -/
def exLSCP : LSCP := LSCP.from_cost_matrix exCost 1 none "LSCP"

/-- Concrete `MCLP` instance on `exCost`. -/
def exMCLP : MCLP := MCLP.from_cost_matrix exCost [1] 1 1 none "MCLP"

/-- Concrete `PDispersion` instance on `exCost`. -/
def exPD : PDispersion := PDispersion.from_cost_matrix exCost 1 none "P-Dispersion"

/-- Concrete `KNearestPMedian` instance. -/
def exKNPM : KNearestPMedian :=
  ⟨"k-nearest-p-median", ⟨false, Objective.sumFac 1, []⟩, 1, 1, fun _ _ => 1⟩

/-- Concrete `LSCPB` instance carrying the always-optimal solver stub. -/
def exLSCPB : LSCPB :=
  ⟨"LSCP-B", ⟨true, Objective.sumCli 1, []⟩, 1, 1, coverage exCost 1, 1, constOptSolver⟩

/-- Concrete `LSCPB` instance carrying the always-infeasible solver stub. -/
def exLSCPBInf : LSCPB := { exLSCPB with solver := constInfSolver }

/-- C1: for every cost matrix and service radius the coverage matrix is 1
exactly where the cost is at most the radius (inclusive threshold) and 0
elsewhere, and `LSCP`, `MCLP` and `LSCPB` all store exactly this matrix as
their `aij` when built through `from_cost_matrix`. -/
theorem c1_coverage_matrix_thresholding
    (c : CostMatrix) (r : ℚ) (predef : Option (List Bool)) (name : String)
    (w : List ℚ) (p : Nat) (s : Solver) (i j : Nat) :
    (coverage c r i j = 1 ↔ c.entry i j ≤ r) ∧
    (coverage c r i j = 0 ↔ ¬ c.entry i j ≤ r) ∧
    (LSCP.from_cost_matrix c r predef name).aij = coverage c r ∧
    (MCLP.from_cost_matrix c w r p predef name).aij = coverage c r ∧
    (LSCPB.from_cost_matrix c r s predef name).map LSCPB.aij
      = ((LSCP.from_cost_matrix c r predef "LSCP").solve s true).map
          (fun _ => coverage c r) := by
  refine ⟨(coverage_one_iff c r i j).1, (coverage_one_iff c r i j).2, rfl, rfl, ?_⟩
  unfold LSCPB.from_cost_matrix
  cases h : (LSCP.from_cost_matrix c r predef "LSCP").solve s true <;>
    simp [h, Except.map]

/-- C2 counterexample: on a concrete instance, `PDispersion.solve` called
with `results=True` still leaves both result attributes unset, refuting the
claim for the P-Dispersion variant. -/
theorem c2_pdispersion_results_true_counterexample :
    (PDispersion.solve exPD constOptSolver true).map PDispersionSolved.fac2cli
        = Except.ok none ∧
    (PDispersion.solve exPD constOptSolver true).map PDispersionSolved.cli2fac
        = Except.ok none :=
  ⟨rfl, rfl⟩

/-- C2 (amended): for LSCP, LSCPB, MCLP and the k-nearest p-median variant,
an optimal solve with `results=True` populates `fac2cli` and `cli2fac` and
with `results=False` leaves both unset; `PDispersion.solve` ignores the
flag and never populates them. -/
theorem c2_amended_results_flag :
    (∀ (m : LSCP) (s : Solver), (s m.problem).status = LpStatusT.optimal →
      (∃ st, m.solve s true = Except.ok st ∧
        st.fac2cli.isSome = true ∧ st.cli2fac.isSome = true) ∧
      (∃ st, m.solve s false = Except.ok st ∧
        st.fac2cli = none ∧ st.cli2fac = none)) ∧
    (∀ m : LSCPB, (m.solver m.problem).status = LpStatusT.optimal →
      (∃ st, m.solve true = Except.ok st ∧
        st.fac2cli.isSome = true ∧ st.cli2fac.isSome = true) ∧
      (∃ st, m.solve false = Except.ok st ∧
        st.fac2cli = none ∧ st.cli2fac = none)) ∧
    (∀ (m : MCLP) (s : Solver), (s m.problem).status = LpStatusT.optimal →
      (∃ st, m.solve s true = Except.ok st ∧
        st.fac2cli.isSome = true ∧ st.cli2fac.isSome = true) ∧
      (∃ st, m.solve s false = Except.ok st ∧
        st.fac2cli = none ∧ st.cli2fac = none)) ∧
    (∀ (m : KNearestPMedian) (s : Solver), (s m.problem).status = LpStatusT.optimal →
      (∃ st, m.solve s true = Except.ok st ∧
        st.fac2cli.isSome = true ∧ st.cli2fac.isSome = true) ∧
      (∃ st, m.solve s false = Except.ok st ∧
        st.fac2cli = none ∧ st.cli2fac = none)) ∧
    (∀ (m : PDispersion) (s : Solver) (b : Bool),
      (s m.problem).status = LpStatusT.optimal →
      ∃ st, m.solve s b = Except.ok st ∧
        st.fac2cli = none ∧ st.cli2fac = none) := by
  refine ⟨?_, ?_, ?_, ?_, ?_⟩
  · intro m s h
    refine ⟨⟨⟨m, (s m.problem).assign,
          some (facility_client_array m.nFac m.nCli m.aij (s m.problem).assign.fac),
          some (client_facility_array
            (facility_client_array m.nFac m.nCli m.aij (s m.problem).assign.fac)
            m.nCli)⟩, ?_, rfl, rfl⟩,
        ⟨⟨m, (s m.problem).assign, none, none⟩, ?_, rfl, rfl⟩⟩ <;>
      simp [LSCP.solve, h]
  · intro m h
    refine ⟨⟨⟨m, (m.solver m.problem).assign,
          some (facility_client_array m.nFac m.nCli m.aij
            (m.solver m.problem).assign.fac),
          some (client_facility_array
            (facility_client_array m.nFac m.nCli m.aij (m.solver m.problem).assign.fac)
            m.nCli)⟩, ?_, rfl, rfl⟩,
        ⟨⟨m, (m.solver m.problem).assign, none, none⟩, ?_, rfl, rfl⟩⟩ <;>
      simp [LSCPB.solve, h]
  · intro m s h
    refine ⟨⟨⟨m, (s m.problem).assign,
          some (mclp_facility_client_array m.nFac m.nCli m.aij
            (s m.problem).assign.fac (s m.problem).assign.cli),
          some (client_facility_array
            (mclp_facility_client_array m.nFac m.nCli m.aij
              (s m.problem).assign.fac (s m.problem).assign.cli)
            m.nCli)⟩, ?_, rfl, rfl⟩,
        ⟨⟨m, (s m.problem).assign, none, none⟩, ?_, rfl, rfl⟩⟩ <;>
      simp [MCLP.solve, h]
  · intro m s h
    refine ⟨⟨⟨m, (s m.problem).assign,
          some (knpm_facility_client_array m.nFac m.nCli
            (s m.problem).assign.asg (s m.problem).assign.fac),
          some (client_facility_array
            (knpm_facility_client_array m.nFac m.nCli
              (s m.problem).assign.asg (s m.problem).assign.fac)
            m.nCli)⟩, ?_, rfl, rfl⟩,
        ⟨⟨m, (s m.problem).assign, none, none⟩, ?_, rfl, rfl⟩⟩ <;>
      simp [KNearestPMedian.solve, h]
  · intro m s b h
    refine ⟨⟨m, (s m.problem).assign, none, none⟩, ?_, rfl, rfl⟩
    simp [PDispersion.solve, h]

/-- C2 witness: the amended statement applied to the concrete instances,
with every optimal-status hypothesis discharged on the solver stub. -/
theorem c2_amended_results_flag_witness :
    ((∃ st, exLSCP.solve constOptSolver true = Except.ok st ∧
        st.fac2cli.isSome = true ∧ st.cli2fac.isSome = true) ∧
      (∃ st, exLSCP.solve constOptSolver false = Except.ok st ∧
        st.fac2cli = none ∧ st.cli2fac = none)) ∧
    ((∃ st, exLSCPB.solve true = Except.ok st ∧
        st.fac2cli.isSome = true ∧ st.cli2fac.isSome = true) ∧
      (∃ st, exLSCPB.solve false = Except.ok st ∧
        st.fac2cli = none ∧ st.cli2fac = none)) ∧
    ((∃ st, exMCLP.solve constOptSolver true = Except.ok st ∧
        st.fac2cli.isSome = true ∧ st.cli2fac.isSome = true) ∧
      (∃ st, exMCLP.solve constOptSolver false = Except.ok st ∧
        st.fac2cli = none ∧ st.cli2fac = none)) ∧
    ((∃ st, exKNPM.solve constOptSolver true = Except.ok st ∧
        st.fac2cli.isSome = true ∧ st.cli2fac.isSome = true) ∧
      (∃ st, exKNPM.solve constOptSolver false = Except.ok st ∧
        st.fac2cli = none ∧ st.cli2fac = none)) ∧
    (∃ st, exPD.solve constOptSolver true = Except.ok st ∧
      st.fac2cli = none ∧ st.cli2fac = none) :=
  ⟨c2_amended_results_flag.1 exLSCP constOptSolver rfl,
    c2_amended_results_flag.2.1 exLSCPB rfl,
    c2_amended_results_flag.2.2.1 exMCLP constOptSolver rfl,
    c2_amended_results_flag.2.2.2.1 exKNPM constOptSolver rfl,
    c2_amended_results_flag.2.2.2.2 exPD constOptSolver true rfl⟩

/-- C3: for every model variant, a non-optimal solver status makes `solve`
return the runtime failure whose message names the status, and no solved
state — hence no result extraction — is ever produced. -/
theorem c3_nonoptimal_status_raises :
    (∀ (m : LSCP) (s : Solver) (b : Bool),
      (s m.problem).status ≠ LpStatusT.optimal →
      m.solve s b = Except.error (check_status_msg (s m.problem).status)) ∧
    (∀ (m : LSCPB) (b : Bool),
      (m.solver m.problem).status ≠ LpStatusT.optimal →
      m.solve b = Except.error (check_status_msg (m.solver m.problem).status)) ∧
    (∀ (m : MCLP) (s : Solver) (b : Bool),
      (s m.problem).status ≠ LpStatusT.optimal →
      m.solve s b = Except.error (check_status_msg (s m.problem).status)) ∧
    (∀ (m : KNearestPMedian) (s : Solver) (b : Bool),
      (s m.problem).status ≠ LpStatusT.optimal →
      m.solve s b = Except.error (check_status_msg (s m.problem).status)) ∧
    (∀ (m : PDispersion) (s : Solver) (b : Bool),
      (s m.problem).status ≠ LpStatusT.optimal →
      m.solve s b = Except.error (check_status_msg (s m.problem).status)) ∧
    (∀ st : LpStatusT,
      check_status_msg st = "Model is not solved: " ++ statusName st) := by
  refine ⟨?_, ?_, ?_, ?_, ?_, fun _ => rfl⟩
  · intro m s b h
    simp [LSCP.solve, h]
  · intro m b h
    simp [LSCPB.solve, h]
  · intro m s b h
    simp [MCLP.solve, h]
  · intro m s b h
    simp [KNearestPMedian.solve, h]
  · intro m s b h
    simp [PDispersion.solve, h]

/-- C3 witness: the theorem applied to concrete instances under the
always-infeasible solver stub. -/
theorem c3_nonoptimal_status_raises_witness :
    exLSCP.solve constInfSolver true
        = Except.error (check_status_msg LpStatusT.infeasible) ∧
    exLSCPBInf.solve true
        = Except.error (check_status_msg LpStatusT.infeasible) ∧
    exMCLP.solve constInfSolver true
        = Except.error (check_status_msg LpStatusT.infeasible) ∧
    exKNPM.solve constInfSolver true
        = Except.error (check_status_msg LpStatusT.infeasible) ∧
    exPD.solve constInfSolver true
        = Except.error (check_status_msg LpStatusT.infeasible) :=
  ⟨c3_nonoptimal_status_raises.1 exLSCP constInfSolver true (by decide),
    c3_nonoptimal_status_raises.2.1 exLSCPBInf true (by decide),
    c3_nonoptimal_status_raises.2.2.1 exMCLP constInfSolver true (by decide),
    c3_nonoptimal_status_raises.2.2.2.1 exKNPM constInfSolver true (by decide),
    c3_nonoptimal_status_raises.2.2.2.2.1 exPD constInfSolver true (by decide)⟩

/-- C4: when the solver settles the inner LSCP optimally,
`LSCPB.from_cost_matrix` succeeds, stores the objective value of the LSCP
built on the same cost matrix and service radius (whose objective is the
facility-count sum) as `lscp_obj_value`, and its constraint set contains
the facility-count constraint bounded above by that value, whose semantics
is exactly `sum_j FacilityVar[j] <= LSCP*`. -/
theorem c4_lscpb_budget_from_lscp
    (c : CostMatrix) (r : ℚ) (s : Solver) (predef : Option (List Bool))
    (name : String)
    (h : (s (LSCP.from_cost_matrix c r predef "LSCP").problem).status
        = LpStatusT.optimal) :
    ∃ m : LSCPB, LSCPB.from_cost_matrix c r s predef name = Except.ok m ∧
      (LSCP.from_cost_matrix c r predef "LSCP").problem.objective
        = Objective.sumFac c.nFac ∧
      m.lscp_obj_value
        = objValue (LSCP.from_cost_matrix c r predef "LSCP").problem.objective
            (s (LSCP.from_cost_matrix c r predef "LSCP").problem).assign ∧
      Constr.facCountLE c.nFac m.lscp_obj_value ∈ m.problem.constrs ∧
      (∀ a : Assignment,
        constrHolds (Constr.facCountLE c.nFac m.lscp_obj_value) a = true ↔
          (∑ j ∈ Finset.range c.nFac, a.fac j) ≤ m.lscp_obj_value) := by
  have hsolve : (LSCP.from_cost_matrix c r predef "LSCP").solve s true
      = Except.ok ⟨LSCP.from_cost_matrix c r predef "LSCP",
          (s (LSCP.from_cost_matrix c r predef "LSCP").problem).assign,
          some (facility_client_array
            (LSCP.from_cost_matrix c r predef "LSCP").nFac
            (LSCP.from_cost_matrix c r predef "LSCP").nCli
            (LSCP.from_cost_matrix c r predef "LSCP").aij
            (s (LSCP.from_cost_matrix c r predef "LSCP").problem).assign.fac),
          some (client_facility_array
            (facility_client_array
              (LSCP.from_cost_matrix c r predef "LSCP").nFac
              (LSCP.from_cost_matrix c r predef "LSCP").nCli
              (LSCP.from_cost_matrix c r predef "LSCP").aij
              (s (LSCP.from_cost_matrix c r predef "LSCP").problem).assign.fac)
            (LSCP.from_cost_matrix c r predef "LSCP").nCli)⟩ := by
    simp [LSCP.solve, h]
  simp only [LSCPB.from_cost_matrix, hsolve]
  refine ⟨_, rfl, rfl, rfl, ?_, fun a => ?_⟩
  · simp
  · simp [constrHolds]

/-- C4 witness: the theorem applied to the concrete one-facility instance
under the always-optimal solver stub. -/
theorem c4_lscpb_budget_from_lscp_witness :
    ∃ m : LSCPB,
      LSCPB.from_cost_matrix exCost 1 constOptSolver none "LSCP-B"
          = Except.ok m ∧
      (LSCP.from_cost_matrix exCost 1 none "LSCP").problem.objective
        = Objective.sumFac exCost.nFac ∧
      m.lscp_obj_value
        = objValue (LSCP.from_cost_matrix exCost 1 none "LSCP").problem.objective
            (constOptSolver (LSCP.from_cost_matrix exCost 1 none "LSCP").problem).assign ∧
      Constr.facCountLE exCost.nFac m.lscp_obj_value ∈ m.problem.constrs ∧
      (∀ a : Assignment,
        constrHolds (Constr.facCountLE exCost.nFac m.lscp_obj_value) a = true ↔
          (∑ j ∈ Finset.range exCost.nFac, a.fac j) ≤ m.lscp_obj_value) :=
  c4_lscpb_budget_from_lscp exCost 1 constOptSolver none "LSCP-B" rfl

/-- A point geometry at the origin. -/
def pointGeom : Geom := ⟨"Point", 0, 0, 0, 0⟩

/-- A non-point (polygon) geometry with centroid (2, 3). -/
def polyGeom : Geom := ⟨"Polygon", 0, 0, 2, 3⟩

/-- A metric stub returning one for every pair of points. -/
def unitMetric : Metric := fun _ _ => 1

/-- A one-point demand frame in EPSG:4326. -/
def gdfDemandEx : GeoDataFrame := ⟨[pointGeom], "EPSG:4326", [], []⟩

/-- A one-point facility frame in a different CRS, EPSG:3857. -/
def gdfFacMismatch : GeoDataFrame := ⟨[pointGeom], "EPSG:3857", [], []⟩

/-- A one-point facility frame sharing the EPSG:4326 CRS. -/
def gdfFacEx : GeoDataFrame := ⟨[⟨"Point", 1, 1, 1, 1⟩], "EPSG:4326", [], []⟩

/-- A one-polygon demand frame in EPSG:4326. -/
def gdfPolyDemand : GeoDataFrame := ⟨[polyGeom], "EPSG:4326", [], []⟩

/-- C5: whenever the two frames disagree on the CRS, every two-layer
`from_geodataframe` constructor (LSCP, LSCPB, MCLP and the k-nearest
p-median variant) returns the CRS-mismatch failure — for the LSCPB
uniformly in the solver, which is therefore never invoked, and for the
other three no solver enters construction at all.
(`PDispersion.from_geodataframe` reads a single layer, so two supplied
collections can never disagree there.) -/
theorem c5_crs_mismatch_fails
    (gdfDemand gdfFac : GeoDataFrame) (r : ℚ) (u : Bool) (metric : Metric)
    (name : String) (p : Nat)
    (h : gdfDemand.crs ≠ gdfFac.crs) :
    (LSCP.from_geodataframe gdfDemand gdfFac r u metric name).2
        = Except.error (crsMsg gdfDemand gdfFac) ∧
    (∀ s : Solver,
      (LSCPB.from_geodataframe gdfDemand gdfFac r s u metric name).2
        = Except.error (crsMsg gdfDemand gdfFac)) ∧
    (MCLP.from_geodataframe gdfDemand gdfFac r p u metric name).2
        = Except.error (crsMsg gdfDemand gdfFac) ∧
    (KNearestPMedian.from_geodataframe gdfDemand gdfFac p metric name).2
        = Except.error (crsMsg gdfDemand gdfFac) := by
  refine ⟨?_, fun s => ?_, ?_, ?_⟩ <;>
    simp [LSCP.from_geodataframe, LSCPB.from_geodataframe,
      MCLP.from_geodataframe, KNearestPMedian.from_geodataframe, h]

/-- C5 witness: the theorem applied to concrete frames with mismatched
reference systems. -/
theorem c5_crs_mismatch_fails_witness :
    (LSCP.from_geodataframe gdfDemandEx gdfFacMismatch 8 false unitMetric "LSCP").2
        = Except.error (crsMsg gdfDemandEx gdfFacMismatch) ∧
    (∀ s : Solver,
      (LSCPB.from_geodataframe gdfDemandEx gdfFacMismatch 8 s false unitMetric
          "LSCP-B").2
        = Except.error (crsMsg gdfDemandEx gdfFacMismatch)) ∧
    (MCLP.from_geodataframe gdfDemandEx gdfFacMismatch 8 4 false unitMetric
        "MCLP").2
      = Except.error (crsMsg gdfDemandEx gdfFacMismatch) ∧
    (KNearestPMedian.from_geodataframe gdfDemandEx gdfFacMismatch 4 unitMetric
        "MCLP").2
      = Except.error (crsMsg gdfDemandEx gdfFacMismatch) :=
  c5_crs_mismatch_fails gdfDemandEx gdfFacMismatch 8 false unitMetric "MCLP" 4
    (by decide)

theorem getD_range_map {α : Type} (n : Nat) (f : Nat → α) (d : α) (i : Nat) :
    ((List.range n).map f).getD i d = if i < n then f i else d := by
  by_cases hi : i < n
  · simp [List.getD_eq_getElem?_getD, List.getElem?_map, List.getElem?_range, hi]
  · rw [if_neg hi]
    apply List.getD_eq_default
    simpa using Nat.le_of_not_lt hi

theorem mem_client_facility_array (f2c : List (List Nat)) (nCli i j : Nat) :
    j ∈ (client_facility_array f2c nCli).getD i [] ↔
      i < nCli ∧ j < f2c.length ∧ i ∈ f2c.getD j [] := by
  unfold client_facility_array
  rw [getD_range_map]
  split_ifs with hi
  · simp [List.mem_filter, List.mem_range, hi, and_assoc]
  · simp [hi]

theorem facility_client_array_bounded (nFac nCli : Nat) (aij : Nat → Nat → ℚ)
    (facVal : Nat → ℚ) (j i : Nat)
    (h : i ∈ (facility_client_array nFac nCli aij facVal).getD j []) :
    i < nCli := by
  unfold facility_client_array at h
  rw [getD_range_map] at h
  split_ifs at h
  · exact List.mem_range.mp (List.mem_filter.mp h).1
  · exact absurd h (List.not_mem_nil i)
  · exact absurd h (List.not_mem_nil i)

theorem mclp_facility_client_array_bounded (nFac nCli : Nat)
    (aij : Nat → Nat → ℚ) (facVal cliVal : Nat → ℚ) (j i : Nat)
    (h : i ∈ (mclp_facility_client_array nFac nCli aij facVal cliVal).getD j []) :
    i < nCli := by
  unfold mclp_facility_client_array at h
  rw [getD_range_map] at h
  split_ifs at h
  · exact List.mem_range.mp (List.mem_filter.mp h).1
  · exact absurd h (List.not_mem_nil i)
  · exact absurd h (List.not_mem_nil i)

theorem knpm_facility_client_array_bounded (nFac nCli : Nat)
    (asg : Nat → Nat → ℚ) (facVal : Nat → ℚ) (j i : Nat)
    (h : i ∈ (knpm_facility_client_array nFac nCli asg facVal).getD j []) :
    i < nCli := by
  unfold knpm_facility_client_array at h
  rw [getD_range_map] at h
  split_ifs at h
  · exact List.mem_range.mp (List.mem_filter.mp h).1
  · exact absurd h (List.not_mem_nil i)
  · exact absurd h (List.not_mem_nil i)

theorem fac2cli_inverse_of_bounded (f2c : List (List Nat)) (nCli : Nat)
    (hb : ∀ j i, i ∈ f2c.getD j [] → i < nCli) (i j : Nat) :
    i ∈ f2c.getD j [] ↔ j ∈ (client_facility_array f2c nCli).getD i [] := by
  rw [mem_client_facility_array]
  constructor
  · intro hmem
    have hj : j < f2c.length := by
      by_contra hjn
      rw [List.getD_eq_default _ _ (Nat.le_of_not_lt hjn)] at hmem
      exact List.not_mem_nil i hmem
    exact ⟨hb j i hmem, hj, hmem⟩
  · exact fun hr => hr.2.2

/-- C6: for each of the three extractors (LSCP/LSCPB, MCLP, k-nearest
p-median), the `fac2cli` array it produces and the `cli2fac` array built
from it by `client_facility_array` are exact index-inverses of each other:
`i` lies in the entry of facility `j` exactly when `j` lies in the entry of
client `i`. -/
theorem c6_fac2cli_cli2fac_inverse (nFac nCli : Nat) (aij asg : Nat → Nat → ℚ)
    (facVal cliVal : Nat → ℚ) (i j : Nat) :
    (i ∈ (facility_client_array nFac nCli aij facVal).getD j [] ↔
      j ∈ (client_facility_array
        (facility_client_array nFac nCli aij facVal) nCli).getD i []) ∧
    (i ∈ (mclp_facility_client_array nFac nCli aij facVal cliVal).getD j [] ↔
      j ∈ (client_facility_array
        (mclp_facility_client_array nFac nCli aij facVal cliVal) nCli).getD i []) ∧
    (i ∈ (knpm_facility_client_array nFac nCli asg facVal).getD j [] ↔
      j ∈ (client_facility_array
        (knpm_facility_client_array nFac nCli asg facVal) nCli).getD i []) :=
  ⟨fac2cli_inverse_of_bounded _ nCli
      (fun j i => facility_client_array_bounded nFac nCli aij facVal j i) i j,
    fac2cli_inverse_of_bounded _ nCli
      (fun j i => mclp_facility_client_array_bounded nFac nCli aij facVal cliVal j i) i j,
    fac2cli_inverse_of_bounded _ nCli
      (fun j i => knpm_facility_client_array_bounded nFac nCli asg facVal j i) i j⟩

/-- C7: in every extractor, a facility whose solved `FacilityVar` value is
non-positive (the facility is not opened) gets an empty client list. -/
theorem c7_closed_facility_empty_clients (nFac nCli : Nat)
    (aij asg : Nat → Nat → ℚ) (facVal cliVal : Nat → ℚ) (j : Nat)
    (h : facVal j ≤ 0) :
    (facility_client_array nFac nCli aij facVal).getD j [] = [] ∧
    (mclp_facility_client_array nFac nCli aij facVal cliVal).getD j [] = [] ∧
    (knpm_facility_client_array nFac nCli asg facVal).getD j [] = [] := by
  have hn : ¬ 0 < facVal j := not_lt.mpr h
  refine ⟨?_, ?_, ?_⟩
  · simp only [facility_client_array]
    rw [getD_range_map]
    simp [hn]
  · simp only [mclp_facility_client_array]
    rw [getD_range_map]
    simp [hn]
  · simp only [knpm_facility_client_array]
    rw [getD_range_map]
    simp [hn]

/-- C7 witness: the theorem applied at a concrete closed facility. -/
theorem c7_closed_facility_empty_clients_witness :
    (facility_client_array 1 1 (fun _ _ => 1) (fun _ => 0)).getD 0 [] = [] ∧
    (mclp_facility_client_array 1 1 (fun _ _ => 1) (fun _ => 0)
      (fun _ => 1)).getD 0 [] = [] ∧
    (knpm_facility_client_array 1 1 (fun _ _ => 1) (fun _ => 0)).getD 0 [] = [] :=
  c7_closed_facility_empty_clients 1 1 (fun _ _ => 1) (fun _ _ => 1)
    (fun _ => 0) (fun _ => 1) 0 le_rfl

/-- A symmetric two-facility cost matrix with unit off-diagonal distance. -/
def pdZeroCost : CostMatrix := ⟨2, 2, fun i j => if i = j then 0 else 1⟩

/-- The P-Dispersion instance requesting zero facilities on `pdZeroCost`,
the failing input of the zero-facility edge case. -/
def pdZeroModel : PDispersion :=
  PDispersion.from_cost_matrix pdZeroCost 0 none "P-Dispersion"

/-- The all-zero valuation: every facility closed, dispersion zero. -/
def zeroAssign : Assignment := ⟨fun _ => 0, fun _ => 0, fun _ _ => 0, 0⟩

/-- C8 evidence: the model `PDispersion.from_cost_matrix` builds for
`p_facilities = 0` is not infeasible — the vacuous all-closed valuation is
binary, has a non-negative dispersion value and satisfies every assembled
constraint — and a solver reporting that optimum makes `solve` return
without any runtime failure. -/
theorem foldr_max_nonneg (l : List ℚ) : 0 ≤ l.foldr max 0 := by
  induction l with
  | nil => exact le_refl 0
  | cons a t ih => exact le_trans ih (le_max_right a _)

theorem c8_pdispersion_zero_facilities_feasible :
    (∀ j < pdZeroModel.nFac, zeroAssign.fac j = 0 ∨ zeroAssign.fac j = 1) ∧
    0 ≤ zeroAssign.disperse ∧
    (∀ c ∈ pdZeroModel.problem.constrs, constrHolds c zeroAssign = true) ∧
    pdZeroModel.solve constOptSolver true
      = Except.ok ⟨pdZeroModel, onesAssign, none, none⟩ := by
  refine ⟨fun j _ => Or.inl rfl, le_refl 0, ?_, rfl⟩
  intro c hc
  have hc2 : c = Constr.facCountLE 2 ((0 : Nat) : ℚ) ∨
      c = Constr.interfacility 0 1 (pdZeroCost.entry 0 1) (maxEntry pdZeroCost) := by
    simpa [pdZeroModel, PDispersion.from_cost_matrix, predefConstrs, pairList,
      pdZeroCost, List.range_succ] using hc
  have hm : 0 ≤ maxEntry pdZeroCost := foldr_max_nonneg _
  rcases hc2 with rfl | rfl
  · simp [constrHolds, zeroAssign]
  · simp only [constrHolds, zeroAssign, decide_eq_true_eq]
    have he : pdZeroCost.entry 0 1 = 1 := by norm_num [pdZeroCost]
    rw [he]
    linarith

theorem dedup_const (v : String) (l : List String) (hne : l ≠ [])
    (hall : ∀ x ∈ l, x = v) : l.dedup = [v] := by
  induction l with
  | nil => exact absurd rfl hne
  | cons a t ih =>
      have ha : a = v := hall a (by simp)
      subst ha
      rcases eq_or_ne t [] with ht | ht
      · subst ht
        simp
      · have hdt : t.dedup = [a] :=
          ih ht (fun x hx => hall x (by simp [hx]))
        have hmem : a ∈ t := by
          rcases List.exists_mem_of_ne_nil t ht with ⟨y, hy⟩
          have hya : y = a := hall y (by simp [hy])
          exact hya ▸ hy
        rw [List.dedup_cons_of_mem hmem, hdt]

theorem needsCentroid_false (gs : List Geom) (hne : gs ≠ [])
    (hall : ∀ g ∈ gs, g.gtype = "Point") : needsCentroid gs = false := by
  have h1 : geomTypes gs = ["Point"] := by
    unfold geomTypes
    refine dedup_const "Point" (gs.map Geom.gtype) ?_ ?_
    · simpa using hne
    · intro x hx
      rcases List.mem_map.mp hx with ⟨g, hg, rfl⟩
      exact hall g hg
  simp [needsCentroid, h1]

theorem processSeries_point (label : String) (gs : List Geom) (hne : gs ≠ [])
    (hall : ∀ g ∈ gs, g.gtype = "Point") : processSeries label gs = ([], gs) := by
  simp [processSeries, needsCentroid_false gs hne hall]

/-- C9: on uniformly point-typed layers with an equal CRS, every
`from_geodataframe` constructor emits no warning and builds exactly the
model `from_cost_matrix` builds on the pairwise distance matrix of the
layers' point coordinates under the chosen metric, with the same service
radius, predefined facilities and name (the dispersion variant over its
single layer taken against itself). -/
theorem c9_from_geodataframe_delegates
    (gdfDemand gdfFac : GeoDataFrame) (r : ℚ) (u : Bool) (metric : Metric)
    (name : String) (p : Nat) (s : Solver)
    (hd1 : gdfDemand.geoms ≠ [])
    (hd2 : ∀ g ∈ gdfDemand.geoms, g.gtype = "Point")
    (hf1 : gdfFac.geoms ≠ [])
    (hf2 : ∀ g ∈ gdfFac.geoms, g.gtype = "Point")
    (hcrs : gdfDemand.crs = gdfFac.crs) :
    LSCP.from_geodataframe gdfDemand gdfFac r u metric name
      = ([], Except.ok (LSCP.from_cost_matrix
          (specLayerCostMatrix gdfDemand gdfFac metric) r
          (chosenPredef gdfFac u) name)) ∧
    LSCPB.from_geodataframe gdfDemand gdfFac r s u metric name
      = ([], LSCPB.from_cost_matrix
          (specLayerCostMatrix gdfDemand gdfFac metric) r s
          (chosenPredef gdfFac u) name) ∧
    MCLP.from_geodataframe gdfDemand gdfFac r p u metric name
      = ([], Except.ok (MCLP.from_cost_matrix
          (specLayerCostMatrix gdfDemand gdfFac metric) gdfDemand.weightData r p
          (chosenPredef gdfFac u) name)) ∧
    PDispersion.from_geodataframe gdfFac p u metric name
      = ([], PDispersion.from_cost_matrix
          (specLayerCostMatrix gdfFac gdfFac metric) p
          (chosenPredef gdfFac u) name) := by
  have hpd := processSeries_point "Demand" gdfDemand.geoms hd1 hd2
  have hpf := processSeries_point "Facility" gdfFac.geoms hf1 hf2
  refine ⟨?_, ?_, ?_, ?_⟩ <;>
    simp [LSCP.from_geodataframe, LSCPB.from_geodataframe,
      MCLP.from_geodataframe, PDispersion.from_geodataframe,
      hpd, hpf, hcrs, specLayerCostMatrix]

/-- C9 witness: the theorem applied to two concrete single-point layers
sharing the EPSG:4326 reference system. -/
theorem c9_from_geodataframe_delegates_witness :
    LSCP.from_geodataframe gdfDemandEx gdfFacEx 8 false unitMetric "LSCP"
      = ([], Except.ok (LSCP.from_cost_matrix
          (specLayerCostMatrix gdfDemandEx gdfFacEx unitMetric) 8
          (chosenPredef gdfFacEx false) "LSCP")) ∧
    LSCPB.from_geodataframe gdfDemandEx gdfFacEx 8 constOptSolver false
        unitMetric "LSCP"
      = ([], LSCPB.from_cost_matrix
          (specLayerCostMatrix gdfDemandEx gdfFacEx unitMetric) 8 constOptSolver
          (chosenPredef gdfFacEx false) "LSCP") ∧
    MCLP.from_geodataframe gdfDemandEx gdfFacEx 8 2 false unitMetric "LSCP"
      = ([], Except.ok (MCLP.from_cost_matrix
          (specLayerCostMatrix gdfDemandEx gdfFacEx unitMetric)
          gdfDemandEx.weightData 8 2 (chosenPredef gdfFacEx false) "LSCP")) ∧
    PDispersion.from_geodataframe gdfFacEx 2 false unitMetric "LSCP"
      = ([], PDispersion.from_cost_matrix
          (specLayerCostMatrix gdfFacEx gdfFacEx unitMetric) 2
          (chosenPredef gdfFacEx false) "LSCP") :=
  c9_from_geodataframe_delegates gdfDemandEx gdfFacEx 8 false unitMetric
    "LSCP" 2 constOptSolver (by decide) (by decide) (by decide) (by decide) rfl

/-- C10: on a concrete input whose demand layer is polygon-typed and whose
facility layer lives in a different CRS, `from_geodataframe` (for both the
LSCP and the LSCPB) emits the centroid-substitution warning for the demand
layer and nevertheless fails afterwards with the CRS-mismatch error: the
geometry check runs before the CRS validation. -/
theorem c10_centroid_warning_before_crs_error :
    centroidWarnMsg "Demand" ∈
        (LSCP.from_geodataframe gdfPolyDemand gdfFacMismatch 8 false unitMetric
          "LSCP").1 ∧
    (LSCP.from_geodataframe gdfPolyDemand gdfFacMismatch 8 false unitMetric
        "LSCP").2
      = Except.error (crsMsg gdfPolyDemand gdfFacMismatch) ∧
    centroidWarnMsg "Demand" ∈
        (LSCPB.from_geodataframe gdfPolyDemand gdfFacMismatch 8 constOptSolver
          false unitMetric "LSCP-B").1 ∧
    (LSCPB.from_geodataframe gdfPolyDemand gdfFacMismatch 8 constOptSolver
        false unitMetric "LSCP-B").2
      = Except.error (crsMsg gdfPolyDemand gdfFacMismatch) :=
  ⟨by decide, rfl, by decide, rfl⟩
